import Mathlib

/-!
Shallow embedding of the qdlrs host-side flashing tool (Firehose response
parsers, the program-file interpreter, the flasher driver and the VIP hash
table generator), together with theorems checking the specification's claims
against the embedded code.

Modelling conventions:
* Rust `IndexMap<String, String>` attribute maps become association lists
  (`Attrs`); `get` takes the first binding of a key.
* `str::parse::<uN>().` is modelled by `parseNatW N` (digit strings, with the
  width bound of the Rust integer type).
* A Rust panic (`unwrap` on `None` / a failed parse) is modelled by the
  `Option` layer: `none` means the function panics.
* Host filesystem and device effects are recorded as explicit operation
  traces; device responses to issued Firehose operations inside the
  interpreter are modelled as always succeeding (the claims under study only
  concern which operations are issued and in which order).  The nested calls
  performed by the configure-response parser (`firehose_reset`,
  `firehose_configure`, `firehose_read`), whose implementations live outside
  the sources under study, have their results supplied by an explicit
  environment (`ConfigureEnv`).
-/

/-- Attribute maps: ordered `(key, value)` pairs, first binding wins. -/
abbrev Attrs : Type := List (String × String)

/-- Lookup in an attribute map (Rust `IndexMap::get`). -/
def attrsGet (attrs : Attrs) (k : String) : Option String :=
  (List.find? (fun p => p.1 = k) attrs).map (fun p => p.2)

/-- Decimal value of a digit string, `none` when the string is empty or holds
a non-digit character. -/
def strToNat (s : String) : Option Nat :=
  if s.data ≠ [] ∧ s.data.all Char.isDigit then
    some (s.data.foldl (fun n c => n * 10 + (c.toNat - 48)) 0)
  else none

/-- Model of `str::parse::<uN>()` for a width-`w` unsigned integer: the string
must be all digits and the value must fit in `w` bits. -/
def parseNatW (w : Nat) (s : String) : Option Nat :=
  match strToNat s with
  | some n => if n < 2 ^ w then some n else none
  | none => none

/-- Firehose ACK/NAK status (`FirehoseStatus`). -/
inductive FirehoseStatus where
  | ack
  | nak
deriving DecidableEq, Repr

/-- Recoverable/fatal NAK classification (`NakError`), restricted to the
constructor used by the configure parser. -/
inductive NakError where
  | configure
  | otherOp
deriving DecidableEq, Repr

/-- Firehose reset modes referenced by the parsers. -/
inductive FirehoseResetMode where
  | resetToEdl
  | otherMode
deriving DecidableEq, Repr

/-- Errors surfaced by the Firehose library (`FirehoseError`), restricted to
the constructors reachable from the parsers under study. -/
inductive FirehoseError where
  | malformedData (attrs : Attrs)
  | nak (e : NakError)
  | protocolVersionIncompatibility (device_min_version : Nat)
  | otherError
deriving DecidableEq, Repr

/-- The highest protocol version currently supported by the library
(`FH_PROTO_VERSION_SUPPORTED`). -/
def FH_PROTO_VERSION_SUPPORTED : Nat := 1

/-- Negotiated Firehose channel configuration (the fields of
`FirehoseConfiguration` touched by the embedded code). -/
structure FirehoseConfiguration where
  xml_buf_size : Nat
  send_buffer_size : Nat
  storage_sector_size : Nat
deriving DecidableEq, Repr

/-- Operations the configure-response parser can issue on the channel. -/
inductive FhOp where
  | reset (mode : FirehoseResetMode) (delay : Nat)
  | configure (skipStorageInit : Bool)
  | readAckNak
deriving DecidableEq, Repr

/-- Results of the nested library calls made by the configure-response
parser; these calls are implemented outside the parsers module, so their
outcomes are supplied as an environment. -/
structure ConfigureEnv where
  resetResult : Except FirehoseError Unit
  configureResult : Except FirehoseError Unit
  readAckResult : Except FirehoseError FirehoseStatus

/-- Embedding of `firehose_parser_ack_nak` (src/qdl/src/parsers.rs): check
the `value` attribute for ACK/NAK.  `none` models the panic of
`attrs.get("value").unwrap()` when the key is absent. -/
def firehose_parser_ack_nak (attrs : Attrs) :
    Option (Except FirehoseError FirehoseStatus) :=
  match attrsGet attrs "value" with
  | none => none
  | some v =>
    if v = "ACK" then some (.ok .ack)
    else if v = "NAK" then some (.ok .nak)
    else some (.error (.malformedData attrs))

/-- Embedding of the NAK-recovery prologue of
`firehose_parser_configure_response` (src/qdl/src/parsers.rs lines 36-46):
on a NAK carrying `MaxPayloadSizeToTargetInBytes` adopt that value as
`send_buffer_size`; on a NAK without it, reset to EDL and fail with
`NakError::Configure`.  Returns (control outcome, updated config, issued
operations); the control outcome `none` is a panic, `some (.ok ())` means
fall through to the rest of the parser. -/
def configureNakStep (attrs : Attrs) (cfg : FirehoseConfiguration)
    (env : ConfigureEnv) :
    Option (Except FirehoseError Unit) × FirehoseConfiguration × List FhOp :=
  match firehose_parser_ack_nak attrs with
  | none => (none, cfg, [])
  | some (.error _) => (some (.ok ()), cfg, [])
  | some (.ok status) =>
    if status = .nak then
      match attrsGet attrs "MaxPayloadSizeToTargetInBytes" with
      | some val =>
        match parseNatW 64 val with
        | some n => (some (.ok ()), { cfg with send_buffer_size := n }, [])
        | none => (none, cfg, [])
      | none =>
        match env.resetResult with
        | .error e => (some (.error e), cfg, [.reset .resetToEdl 0])
        | .ok _ => (some (.error (.nak .configure)), cfg, [.reset .resetToEdl 0])
    else (some (.ok ()), cfg, [])

deriving instance DecidableEq for Except

/-- Outcome of the configure-response parser: final result (`none` = panic),
final channel configuration and the operations issued along the way. -/
structure ConfigureOutcome where
  result : Option (Except FirehoseError FirehoseStatus)
  cfg : FirehoseConfiguration
  ops : List FhOp
deriving DecidableEq, Repr

/-- Embedding of `firehose_parser_configure_response`
(src/qdl/src/parsers.rs): NAK recovery, the mandatory attribute reads, the
version gate (`min_version_supported < FH_PROTO_VERSION_SUPPORTED`), the
absorption of `MaxXMLSizeInBytes` and `MaxPayloadSizeToTargetInBytes`, and
the one-shot reconfiguration when the device supports a larger send buffer. -/
def firehose_parser_configure_response (attrs : Attrs)
    (cfg : FirehoseConfiguration) (env : ConfigureEnv) : ConfigureOutcome :=
  match configureNakStep attrs cfg env with
  | (none, cfg1, ops1) => ⟨none, cfg1, ops1⟩
  | (some (.error e), cfg1, ops1) => ⟨some (.error e), cfg1, ops1⟩
  | (some (.ok _), cfg1, ops1) =>
    match (attrsGet attrs "MaxPayloadSizeToTargetInBytesSupported").bind
        (parseNatW 64) with
    | none => ⟨none, cfg1, ops1⟩
    | some device_max_write_payload_size =>
      match attrsGet attrs "Version" with
      | none => ⟨none, cfg1, ops1⟩
      | some _version =>
        match (attrsGet attrs "MinVersionSupported").bind (parseNatW 32) with
        | none => ⟨none, cfg1, ops1⟩
        | some min_version_supported =>
          if min_version_supported < FH_PROTO_VERSION_SUPPORTED then
            ⟨some (.error
                (.protocolVersionIncompatibility min_version_supported)),
              cfg1, ops1⟩
          else
            match (attrsGet attrs "MaxXMLSizeInBytes").bind (parseNatW 64) with
            | none => ⟨none, cfg1, ops1⟩
            | some xml_size =>
              match (attrsGet attrs "MaxPayloadSizeToTargetInBytes").bind
                  (parseNatW 64) with
              | none => ⟨none, { cfg1 with xml_buf_size := xml_size }, ops1⟩
              | some payload_size =>
                if payload_size < device_max_write_payload_size then
                  match env.configureResult with
                  | .error e =>
                    ⟨some (.error e),
                      { cfg1 with xml_buf_size := xml_size, send_buffer_size := device_max_write_payload_size },
                      ops1 ++ [.configure true]⟩
                  | .ok _ =>
                    match env.readAckResult with
                    | .error e =>
                      ⟨some (.error e),
                        { cfg1 with xml_buf_size := xml_size, send_buffer_size := device_max_write_payload_size },
                        ops1 ++ [.configure true, .readAckNak]⟩
                    | .ok _ =>
                      ⟨some (.ok .ack),
                        { cfg1 with xml_buf_size := xml_size, send_buffer_size := device_max_write_payload_size },
                        ops1 ++ [.configure true, .readAckNak]⟩
                else
                  ⟨some (.ok .ack),
                    { cfg1 with xml_buf_size := xml_size, send_buffer_size := payload_size },
                    ops1⟩

/-- Canonical well-formed configure ACK response attributes, parameterised by
the advertised version bounds and buffer sizes (used for concrete runs). -/
def mkConfigureAttrs (value minv sup payload xml : String) : Attrs :=
  [("value", value),
   ("MaxPayloadSizeToTargetInBytesSupported", sup),
   ("Version", "1"),
   ("MinVersionSupported", minv),
   ("MaxXMLSizeInBytes", xml),
   ("MaxPayloadSizeToTargetInBytes", payload)]

/-- A blank starting channel configuration for concrete runs. -/
def cfg0 : FirehoseConfiguration :=
  { xml_buf_size := 0, send_buffer_size := 0, storage_sector_size := 4096 }

/-- An environment in which every nested library call succeeds. -/
def envOk : ConfigureEnv :=
  { resetResult := .ok (), configureResult := .ok (),
    readAckResult := .ok .ack }

/-- Shape of the operation trace of the configure-response parser: whatever
happens after the NAK-recovery step appends at most one `configure` and one
ack-read to the step's own trace. -/
theorem configure_response_ops_shape (attrs : Attrs)
    (cfg : FirehoseConfiguration) (env : ConfigureEnv) :
    (firehose_parser_configure_response attrs cfg env).ops =
        (configureNakStep attrs cfg env).2.2 ∨
    (firehose_parser_configure_response attrs cfg env).ops =
        (configureNakStep attrs cfg env).2.2 ++ [FhOp.configure true] ∨
    (firehose_parser_configure_response attrs cfg env).ops =
        (configureNakStep attrs cfg env).2.2 ++
          [FhOp.configure true, FhOp.readAckNak] := by
  unfold firehose_parser_configure_response
  rcases h : configureNakStep attrs cfg env with ⟨r, cfg1, ops1⟩
  repeat' split
  all_goals simp_all

/-- C9: under the precondition that the attribute map contains a `value` key,
`firehose_parser_ack_nak` returns Ack exactly when the value is "ACK", Nak
exactly when it is "NAK", and a MalformedData error for any other value; when
the `value` key is absent the function panics instead of returning an
error. -/
theorem firehose_ack_nak_spec (attrs : Attrs) :
    (∀ v, attrsGet attrs "value" = some v →
      firehose_parser_ack_nak attrs =
        some (if v = "ACK" then Except.ok FirehoseStatus.ack
          else if v = "NAK" then Except.ok FirehoseStatus.nak
          else Except.error (FirehoseError.malformedData attrs))) ∧
    (attrsGet attrs "value" = none → firehose_parser_ack_nak attrs = none) := by
  refine ⟨fun v hv => ?_, fun hv => ?_⟩ <;>
    simp only [firehose_parser_ack_nak, hv]
  by_cases h1 : v = "ACK" <;> by_cases h2 : v = "NAK" <;> simp [h1, h2]

/-- Witness for `firehose_ack_nak_spec` at concrete inputs. -/
theorem firehose_ack_nak_spec_witness :
    firehose_parser_ack_nak [("value", "NAK")] =
      some (Except.ok FirehoseStatus.nak) := by
  have h := (firehose_ack_nak_spec [("value", "NAK")]).1 "NAK" (by rfl)
  simpa using h

/-- C3 divergence: the code gates the version error on
`min_version_supported < 1` rather than `> 1`: an ACK response advertising
`MinVersionSupported = 2` is accepted, while `MinVersionSupported = 0` is
rejected with `ProtocolVersionIncompatibility`. -/
theorem configure_version_gate_divergence :
    (firehose_parser_configure_response
        (mkConfigureAttrs "ACK" "2" "1048576" "1048576" "4096")
        cfg0 envOk).result = some (Except.ok FirehoseStatus.ack) ∧
    (firehose_parser_configure_response
        (mkConfigureAttrs "ACK" "0" "1048576" "1048576" "4096")
        cfg0 envOk).result =
      some (Except.error (FirehoseError.protocolVersionIncompatibility 0)) := by
  exact ⟨rfl, rfl⟩

/-- C6: a NAK configure response carrying `MaxPayloadSizeToTargetInBytes`
makes the parser adopt that value as `send_buffer_size` and fall through
(no reset is issued and the NAK is not surfaced as `NakError::Configure`);
a NAK without that attribute resets to EDL and fails with
`NakError::Configure`. -/
theorem configure_nak_recovery (attrs : Attrs) (cfg : FirehoseConfiguration)
    (env : ConfigureEnv) (hv : attrsGet attrs "value" = some "NAK") :
    (∀ s n, attrsGet attrs "MaxPayloadSizeToTargetInBytes" = some s →
        parseNatW 64 s = some n →
        configureNakStep attrs cfg env =
          (some (Except.ok ()), { cfg with send_buffer_size := n }, []) ∧
        ¬ FhOp.reset FirehoseResetMode.resetToEdl 0 ∈
          (firehose_parser_configure_response attrs cfg env).ops) ∧
    (attrsGet attrs "MaxPayloadSizeToTargetInBytes" = none →
        env.resetResult = Except.ok () →
        (firehose_parser_configure_response attrs cfg env).result =
          some (Except.error (FirehoseError.nak NakError.configure)) ∧
        (firehose_parser_configure_response attrs cfg env).ops =
          [FhOp.reset FirehoseResetMode.resetToEdl 0]) := by
  constructor
  · intro s n hs hn
    have hstep : configureNakStep attrs cfg env =
        (some (Except.ok ()), { cfg with send_buffer_size := n }, []) := by
      simp [configureNakStep, firehose_parser_ack_nak, hv, hs, hn]
    refine ⟨hstep, ?_⟩
    rcases configure_response_ops_shape attrs cfg env with h | h | h <;>
      rw [h, hstep] <;> simp
  · intro hnone hreset
    have hstep : configureNakStep attrs cfg env =
        (some (Except.error (FirehoseError.nak NakError.configure)), cfg,
          [FhOp.reset FirehoseResetMode.resetToEdl 0]) := by
      simp [configureNakStep, firehose_parser_ack_nak, hv, hnone, hreset]
    constructor <;> · unfold firehose_parser_configure_response; rw [hstep]

/-- Witness for `configure_nak_recovery` at concrete inputs. -/
theorem configure_nak_recovery_witness :
    configureNakStep (mkConfigureAttrs "NAK" "1" "2097152" "65536" "4096")
        cfg0 envOk =
      (some (Except.ok ()), { cfg0 with send_buffer_size := 65536 }, []) := by
  exact ((configure_nak_recovery
      (mkConfigureAttrs "NAK" "1" "2097152" "65536" "4096") cfg0 envOk
      (by rfl)).1 "65536" 65536 (by rfl) (by rfl)).1

/-- C7: during the configure handshake, once the NAK-recovery step has fallen
through, the parser absorbs `MaxXMLSizeInBytes` into `xml_buf_size` and
`MaxPayloadSizeToTargetInBytes` into `send_buffer_size`; exactly when the
device-advertised `MaxPayloadSizeToTargetInBytesSupported` exceeds the
adopted value does it raise `send_buffer_size` to that maximum and issue one
further configure request followed by one ack read, and otherwise it issues
nothing further. -/
theorem configure_absorb_and_reconfigure_once (attrs : Attrs)
    (cfg : FirehoseConfiguration) (env : ConfigureEnv)
    (sup minv xml_size payload : Nat) (st : FirehoseStatus)
    (hv : attrsGet attrs "value" = some "ACK" ∨
      attrsGet attrs "value" = some "NAK")
    (hsup : (attrsGet attrs "MaxPayloadSizeToTargetInBytesSupported").bind
      (parseNatW 64) = some sup)
    (hver : (attrsGet attrs "Version").isSome = true)
    (hmin : (attrsGet attrs "MinVersionSupported").bind (parseNatW 32) =
      some minv)
    (hminok : FH_PROTO_VERSION_SUPPORTED ≤ minv)
    (hxml : (attrsGet attrs "MaxXMLSizeInBytes").bind (parseNatW 64) =
      some xml_size)
    (hpay : (attrsGet attrs "MaxPayloadSizeToTargetInBytes").bind
      (parseNatW 64) = some payload)
    (hcf : env.configureResult = Except.ok ())
    (hrd : env.readAckResult = Except.ok st) :
    (firehose_parser_configure_response attrs cfg env).cfg.xml_buf_size =
      xml_size ∧
    (firehose_parser_configure_response attrs cfg env).result =
      some (Except.ok FirehoseStatus.ack) ∧
    (payload < sup →
      (firehose_parser_configure_response attrs cfg env).cfg.send_buffer_size
          = sup ∧
      (firehose_parser_configure_response attrs cfg env).ops =
        [FhOp.configure true, FhOp.readAckNak]) ∧
    (sup ≤ payload →
      (firehose_parser_configure_response attrs cfg env).cfg.send_buffer_size
          = payload ∧
      (firehose_parser_configure_response attrs cfg env).ops = []) := by
  obtain ⟨ver, hvereq⟩ := Option.isSome_iff_exists.mp hver
  have hminlt : ¬ minv < FH_PROTO_VERSION_SUPPORTED := Nat.not_lt.mpr hminok
  have hstep : ∃ cfg1, configureNakStep attrs cfg env =
      (some (Except.ok ()), cfg1, []) := by
    rcases hv with hv | hv
    · exact ⟨cfg, by simp [configureNakStep, firehose_parser_ack_nak, hv]⟩
    · obtain ⟨s, hs, hn⟩ := Option.bind_eq_some.mp hpay
      exact ⟨{ cfg with send_buffer_size := payload },
        by simp [configureNakStep, firehose_parser_ack_nak, hv, hs, hn]⟩
  obtain ⟨cfg1, hstep⟩ := hstep
  have hmain : firehose_parser_configure_response attrs cfg env =
      if payload < sup then
        ⟨some (Except.ok FirehoseStatus.ack),
          { cfg1 with xml_buf_size := xml_size, send_buffer_size := sup },
          [FhOp.configure true, FhOp.readAckNak]⟩
      else
        ⟨some (Except.ok FirehoseStatus.ack),
          { cfg1 with xml_buf_size := xml_size, send_buffer_size := payload },
          []⟩ := by
    unfold firehose_parser_configure_response
    rw [hstep]
    simp only [hsup, hvereq, hmin, hxml, hpay, hcf, hrd]
    rw [if_neg hminlt]
    split <;> rfl
  by_cases hlt : payload < sup
  · rw [hmain, if_pos hlt]
    refine ⟨rfl, rfl, fun _ => ⟨rfl, rfl⟩, fun hge => absurd hlt (Nat.not_lt.mpr hge)⟩
  · rw [hmain, if_neg hlt]
    exact ⟨rfl, rfl, fun h => absurd h hlt, fun _ => ⟨rfl, rfl⟩⟩

/-- Witness for `configure_absorb_and_reconfigure_once` at concrete inputs. -/
theorem configure_absorb_and_reconfigure_once_witness :
    (firehose_parser_configure_response
        (mkConfigureAttrs "ACK" "1" "2097152" "1048576" "4096")
        cfg0 envOk).cfg.send_buffer_size = 2097152 ∧
    (firehose_parser_configure_response
        (mkConfigureAttrs "ACK" "1" "2097152" "1048576" "4096")
        cfg0 envOk).ops = [FhOp.configure true, FhOp.readAckNak] := by
  exact (configure_absorb_and_reconfigure_once
    (mkConfigureAttrs "ACK" "1" "2097152" "1048576" "4096") cfg0 envOk
    2097152 1 4096 1048576 FirehoseStatus.ack
    (Or.inl (by rfl)) (by rfl) (by rfl) (by rfl) (by decide) (by rfl)
    (by rfl) (by rfl) (by rfl)).2.2.1 (by decide)

/-- SHA-256 output size in bytes (`Sha256::output_size()`). -/
def sha256OutputSize : Nat := 32

/-- The number of hashes in a single table of digests
(`MAX_DIGESTS_PER_FILE`); the 54th entry is reserved. -/
def MAX_DIGESTS_PER_FILE : Nat := 54 - 1

/-- Size in bytes of a `Vec<Vec<u8>>` value itself on a 64-bit target
(pointer, capacity, length), which is what
`size_of_val(&primary_digests)` in `gen_hash_tables` measures. -/
def vecOfVecU8Size : Nat := 24

/-- Little-endian serialization of a `u32` (bincode fixed-width). -/
def u32LE (n : Nat) : List Nat :=
  [n % 256, n / 256 % 256, n / 2 ^ 16 % 256, n / 2 ^ 24 % 256]

/-- The MBN v3 header written in front of the primary hash table
(`MbnHeaderV3`), fields as Nat values of the underlying `u32`s. -/
structure MbnHeaderV3 where
  image_id : Nat
  header_ver_num : Nat
  image_src : Nat
  image_dest_ptr : Nat
  image_size : Nat
  code_size : Nat
  signature_ptr : Nat
  signature_size : Nat
  cert_chain_ptr : Nat
  cert_chain_size : Nat
deriving DecidableEq, Repr

/-- Bincode serialization of `MbnHeaderV3`: ten fixed-width little-endian
`u32` fields, 40 bytes. -/
def serializeMbnHeaderV3 (h : MbnHeaderV3) : List Nat :=
  u32LE h.image_id ++ u32LE h.header_ver_num ++ u32LE h.image_src ++
  u32LE h.image_dest_ptr ++ u32LE h.image_size ++ u32LE h.code_size ++
  u32LE h.signature_ptr ++ u32LE h.signature_size ++
  u32LE h.cert_chain_ptr ++ u32LE h.cert_chain_size

/-- Fuelled splitting of a list into consecutive chunks of `n` elements, the
last possibly shorter.  (`chunks(0)` panics in Rust; it is never called with
0 here, and `chunksOf` returns `[]` for it.) -/
def chunksGo (n : Nat) : Nat → List α → List (List α)
  | _, [] => []
  | 0, _ :: _ => []
  | fuel + 1, x :: xs => (x :: xs).take n :: chunksGo n fuel ((x :: xs).drop n)

/-- Rust `slice::chunks(n)` proper: the fuel (the list length suffices when
`n ≥ 1`) only makes the recursion structural. -/
def chunksOf (n : Nat) (l : List α) : List (List α) :=
  if n = 0 then [] else chunksGo n l.length l

/-- One iteration of the chained-table loop of `gen_hash_tables`: append the
chunk's digests followed by the hash of the table that follows, then record
the hash of the current chunk's digest concatenation. -/
def chainStep (sha : List Nat → List Nat)
    (st : List (List Nat) × List Nat) (tbl : List (List Nat)) :
    List (List Nat) × List Nat :=
  (st.1 ++ [tbl.flatten ++ st.2], sha tbl.flatten)

/-- The chained-table loop of `gen_hash_tables` (iterating the chunk list in
reverse): returns `processed_chained_tables` and the final `hash` value. -/
def processChained (sha : List Nat → List Nat)
    (chained : List (List (List Nat))) : List (List Nat) × List Nat :=
  chained.reverse.foldl (chainStep sha) ([], [])

/-- Observable output of `gen_hash_tables`: the bytes written to
`signme.mbn`, the bytes written to `tables.bin` (`none` when the file is not
created), and the header record that was serialized. -/
structure VipOutput where
  signme : List Nat
  tables : Option (List Nat)
  hdr : MbnHeaderV3
deriving DecidableEq, Repr

/-- Primary digest table selection of `gen_hash_tables`
(src/qdl/src/vip.rs, the `digests.len() >= MAX_DIGESTS_PER_FILE` split). -/
def vipPrimaryDigests (digests : List (List Nat)) : List (List Nat) :=
  if digests.length ≥ MAX_DIGESTS_PER_FILE then
    digests.take MAX_DIGESTS_PER_FILE
  else digests

/-- Aux (chained) digest selection of `gen_hash_tables`. -/
def vipAuxDigests (digests : List (List Nat)) : List (List Nat) :=
  if digests.length ≥ MAX_DIGESTS_PER_FILE then
    digests.drop MAX_DIGESTS_PER_FILE
  else []

/-- The `processed_chained_tables` vector built by the loop of
`gen_hash_tables`: aux digests are chunked into groups of
`max_table_size / 32 - 1` and processed from the last chunk backwards. -/
def vipProcessedChainedTables (sha : List Nat → List Nat)
    (digests : List (List Nat)) (max_table_size : Nat) : List (List Nat) :=
  (processChained sha
    (chunksOf (max_table_size / sha256OutputSize - 1)
      (vipAuxDigests digests))).1

/-- The `mbn_table_size` computed by `gen_hash_tables`; the source takes
`size_of_val(&primary_digests)` — the size of the `Vec` value itself — so
this is 24 or 24 + 32, independent of the digest count. -/
def vipMbnTableSize (digests : List (List Nat)) : Nat :=
  match (vipAuxDigests digests).isEmpty with
  | true => vecOfVecU8Size
  | false => vecOfVecU8Size + sha256OutputSize

/-- The MBN v3 header record populated by `gen_hash_tables`
(`as u32` casts modelled by `% 2 ^ 32`). -/
def vipHdr (digests : List (List Nat)) : MbnHeaderV3 :=
  { image_id := 26, header_ver_num := 3, image_src := 40,
    image_dest_ptr := 0, image_size := vipMbnTableSize digests % 2 ^ 32,
    code_size := vipMbnTableSize digests % 2 ^ 32, signature_ptr := 0,
    signature_size := 0, cert_chain_ptr := 0, cert_chain_size := 0 }

/-- Embedding of `gen_hash_tables` (src/qdl/src/vip.rs).  `sha` stands for
`Sha256::digest` (an external primitive); digests and file contents are byte
lists.  Note the faithful quirks of the source: the bytes appended to
`signme.mbn` after the primary digests are `processed_chained_tables.last()`
(the entire first chained table), while `tables.bin` receives
`aux_digests.concat()`. -/
def gen_hash_tables (sha : List Nat → List Nat) (digests : List (List Nat))
    (max_table_size : Nat) : VipOutput :=
  { signme := serializeMbnHeaderV3 (vipHdr digests) ++
      (vipPrimaryDigests digests).flatten ++
      ((vipProcessedChainedTables sha digests max_table_size).getLast?.getD []),
    tables :=
      match (vipProcessedChainedTables sha digests max_table_size).getLast? with
      | some _ => some (vipAuxDigests digests).flatten
      | none => none,
    hdr := vipHdr digests }

/-- A stand-in SHA-256 primitive for concrete evaluations: the claims
settled below only depend on the digest length being 32 bytes. -/
def shaStub : List Nat → List Nat := fun _ => List.replicate 32 0

/-- Splitting a short nonempty list yields a single chunk. -/
theorem chunksGo_nil (n fuel : Nat) : chunksGo n fuel ([] : List α) = [] := by
  cases fuel <;> rfl

/-- A nonempty list no longer than the chunk size is one single chunk. -/
theorem chunksOf_of_length_le (n : Nat) (x : α) (xs : List α)
    (hn : n ≠ 0) (hlen : (x :: xs).length ≤ n) :
    chunksOf n (x :: xs) = [x :: xs] := by
  unfold chunksOf
  rw [if_neg hn]
  show chunksGo n (xs.length + 1) (x :: xs) = [x :: xs]
  unfold chunksGo
  rw [List.take_of_length_le hlen, List.drop_eq_nil_of_le hlen, chunksGo_nil]


/-- The serialized MBN v3 header is always 40 bytes. -/
theorem serializeMbnHeaderV3_length (h : MbnHeaderV3) :
    (serializeMbnHeaderV3 h).length = 40 := by
  simp [serializeMbnHeaderV3, u32LE]

/-- C2 divergence: on 100 input digests (each 32 bytes) with the standard
8192-byte chained table size, `gen_hash_tables` appends the entire first
chained table (47 × 32 bytes) to `signme.mbn` instead of its 32-byte hash:
the file is 40 + 53·32 + 47·32 = 3240 bytes, not 40 + 53·32 + 32 = 1768,
while `tables.bin` is 47·32 = 1504 bytes. -/
theorem vip_signme_100_divergence :
    (gen_hash_tables shaStub (List.replicate 100 (List.replicate 32 0))
        8192).signme.length = 3240 ∧
    ((gen_hash_tables shaStub (List.replicate 100 (List.replicate 32 0))
        8192).tables.map List.length) = some 1504 ∧
    (3240 : Nat) ≠ 40 + 53 * 32 + 32 := by
  have hpri : vipPrimaryDigests (List.replicate 100 (List.replicate 32 0)) =
      List.replicate 53 (List.replicate 32 0) := by
    norm_num [vipPrimaryDigests, MAX_DIGESTS_PER_FILE, List.take_replicate]
  have haux : vipAuxDigests (List.replicate 100 (List.replicate 32 0)) =
      List.replicate 47 (List.replicate 32 0) := by
    norm_num [vipAuxDigests, MAX_DIGESTS_PER_FILE, List.drop_replicate]
  have hchunks : chunksOf 255 (List.replicate 47 (List.replicate 32 (0 : Nat)))
      = [List.replicate 47 (List.replicate 32 0)] := by
    rw [show List.replicate 47 (List.replicate 32 (0 : Nat)) =
      List.replicate 32 0 :: List.replicate 46 (List.replicate 32 0) from rfl]
    exact chunksOf_of_length_le 255 _ _ (by decide) (by simp)
  have hproc : vipProcessedChainedTables shaStub
      (List.replicate 100 (List.replicate 32 0)) 8192 =
      [List.replicate 1504 0] := by
    unfold vipProcessedChainedTables
    rw [haux]
    norm_num [sha256OutputSize, hchunks, processChained, chainStep,
      List.flatten_replicate_replicate]
  refine ⟨?_, ?_, by norm_num⟩
  · show (serializeMbnHeaderV3 _ ++
      (vipPrimaryDigests _).flatten ++
      ((vipProcessedChainedTables _ _ _).getLast?.getD [])).length = 3240
    rw [hpri, hproc, List.flatten_replicate_replicate]
    simp only [List.getLast?_singleton, Option.getD_some, List.length_append,
      serializeMbnHeaderV3_length, List.length_replicate]
  · show (match (vipProcessedChainedTables shaStub
        (List.replicate 100 (List.replicate 32 0)) 8192).getLast? with
      | some _ => some (vipAuxDigests
          (List.replicate 100 (List.replicate 32 0))).flatten
      | none => none).map List.length = some 1504
    rw [hproc, haux, List.flatten_replicate_replicate]
    simp only [List.getLast?_singleton, Option.map_some', List.length_replicate]

/-- C4 divergence: the `image_size`/`code_size` fields written by
`gen_hash_tables` come from `size_of_val(&primary_digests)` — the 24-byte
`Vec` value itself — so a single-digest input yields 24 (not 1·32 = 32) and
a 100-digest input yields 24 + 32 = 56 (not 53·32 + 32). -/
theorem vip_header_size_divergence :
    (gen_hash_tables shaStub [List.replicate 32 0] 8192).hdr.image_size
      = 24 ∧
    (gen_hash_tables shaStub [List.replicate 32 0] 8192).hdr.code_size
      = 24 ∧
    (gen_hash_tables shaStub (List.replicate 100 (List.replicate 32 0))
      8192).hdr.image_size = 56 ∧
    (24 : Nat) ≠ 1 * 32 ∧ (56 : Nat) ≠ 53 * 32 + 32 := by
  have haux : vipAuxDigests (List.replicate 100 (List.replicate 32 0)) =
      List.replicate 47 (List.replicate 32 0) := by
    norm_num [vipAuxDigests, MAX_DIGESTS_PER_FILE, List.drop_replicate]
  have h1 : vipAuxDigests [List.replicate 32 0] = [] := by
    norm_num [vipAuxDigests, MAX_DIGESTS_PER_FILE]
  refine ⟨?_, ?_, ?_, by norm_num, by norm_num⟩
  · show vipMbnTableSize [List.replicate 32 0] % 2 ^ 32 = 24
    unfold vipMbnTableSize
    rw [h1]
    rfl
  · show vipMbnTableSize [List.replicate 32 0] % 2 ^ 32 = 24
    unfold vipMbnTableSize
    rw [h1]
    rfl
  · show vipMbnTableSize (List.replicate 100 (List.replicate 32 0)) % 2 ^ 32
      = 56
    unfold vipMbnTableSize
    rw [haux]
    rfl

/-- Operations issued by the program-file interpreter and the flasher:
Firehose operations plus the host-side file actions the interpreter
performs.  Device responses are modelled as always ACK (the claims below
only concern which operations are issued, and in which order). -/
inductive CliOp where
  | checksumStorage (num_sectors phys start_sector : Nat)
  | createOutFile (path : String)
  | readStorage (num_sectors slot phys start_sector : Nat)
  | patch (byte_off slot phys size : Nat) (start_sector val : String)
  | openFile (path : String)
  | seekBytes (off : Nat)
  | programStorage (label : String) (num_sectors slot phys : Nat)
      (start_sector : String)
  | setBootable (idx : Nat)
deriving DecidableEq, Repr

/-- The `slot` attribute handling shared by the element handlers:
`attrs.get("slot").map_or(0, |a| a.parse::<u8>().unwrap())`. -/
def slotParse (attrs : Attrs) : Option Nat :=
  match attrsGet attrs "slot" with
  | none => some 0
  | some a => parseNatW 8 a

/-- Embedding of `parse_read_cmd` (src/cli/src/programfile.rs): returns the
operations performed and the control outcome (`none` = panic). -/
def parse_read_cmd (out_dir : String) (attrs : Attrs) (checksum_only : Bool) :
    List CliOp × Option (Except String Unit) :=
  match (attrsGet attrs "num_partition_sectors").bind (parseNatW 64) with
  | none => ([], none)
  | some num_sectors =>
  match slotParse attrs with
  | none => ([], none)
  | some slot =>
  match (attrsGet attrs "physical_partition_number").bind (parseNatW 8) with
  | none => ([], none)
  | some phys_part_idx =>
  match (attrsGet attrs "start_sector").bind (parseNatW 32) with
  | none => ([], none)
  | some start_sector =>
  if checksum_only then
    ([.checksumStorage num_sectors phys_part_idx start_sector],
      some (.ok ()))
  else
    match attrsGet attrs "filename" with
    | none => ([], some (.error "Got read tag without a filename"))
    | some filename =>
      ([.createOutFile (out_dir ++ "/" ++ filename),
        .readStorage num_sectors slot phys_part_idx start_sector],
        some (.ok ()))

/-- Embedding of `parse_patch_cmd` (src/cli/src/programfile.rs).  Note the
faithful quirk of the source: the skip of a non-"DISK" (host-side) patch is
guarded by `filename != "DISK" && verbose`, so it only happens when the
verbose flag is set. -/
def parse_patch_cmd (attrs : Attrs) (verbose : Bool) :
    List CliOp × Option (Except String Unit) :=
  match attrsGet attrs "filename" with
  | none => ([], some (.error "Got patch tag without a filename"))
  | some filename =>
    if filename ≠ "DISK" ∧ verbose = true then ([], some (.ok ()))
    else
      match (attrsGet attrs "byte_offset").bind (parseNatW 64) with
      | none => ([], none)
      | some byte_off =>
      match slotParse attrs with
      | none => ([], none)
      | some slot =>
      match (attrsGet attrs "physical_partition_number").bind (parseNatW 8) with
      | none => ([], none)
      | some phys_part_idx =>
      match (attrsGet attrs "size_in_bytes").bind (parseNatW 64) with
      | none => ([], none)
      | some size =>
      match attrsGet attrs "start_sector" with
      | none => ([], none)
      | some start_sector =>
      match attrsGet attrs "value" with
      | none => ([], none)
      | some val =>
        ([.patch byte_off slot phys_part_idx size start_sector val],
          some (.ok ()))

/-- ASCII lowercasing of one character (model of the lowercasing used by
`str::to_lowercase` on the ASCII tag names at hand). -/
def charToLower (c : Char) : Char :=
  if 65 ≤ c.toNat ∧ c.toNat ≤ 90 then Char.ofNat (c.toNat + 32) else c

/-- ASCII lowercasing of a string (`str::to_lowercase`). -/
def strToLower (s : String) : String := ⟨s.data.map charToLower⟩

/-- The partition labels treated as bootable (`BOOTABLE_PART_NAMES`). -/
def BOOTABLE_PART_NAMES : List String := ["xbl", "xbl_a", "sbl1"]

/-- The bootable-partition recording step of `parse_program_cmd`. -/
def bootableUpdate (label : String) (phys : Nat) (b : Option Nat) :
    Option Nat :=
  if label ∈ BOOTABLE_PART_NAMES then some phys else b

/-- Embedding of `parse_program_cmd` (src/cli/src/programfile.rs): returns
the operations performed, the value of the `bootable_part_idx` out-parameter
after the call, and the control outcome (`none` = panic).  The
`file_sector_offset` attribute (`unwrap_or` defaults, never panics) is
folded into the seek operation. -/
def parse_program_cmd (storage_sector_size : Nat)
    (fileExists : String → Bool) (program_file_dir : String) (attrs : Attrs)
    (allow_missing_files : Bool) (bootable_part_idx : Option Nat)
    (_verbose : Bool) :
    List CliOp × Option Nat × Option (Except String Unit) :=
  match (attrsGet attrs "SECTOR_SIZE_IN_BYTES").bind (parseNatW 64) with
  | none => ([], bootable_part_idx, none)
  | some sector_size =>
  if sector_size ≠ storage_sector_size then
    ([], bootable_part_idx,
      some (.error "Mismatch in storage sector size!"))
  else
  match (attrsGet attrs "num_partition_sectors").bind (parseNatW 64) with
  | none => ([], bootable_part_idx, none)
  | some num_sectors =>
  match slotParse attrs with
  | none => ([], bootable_part_idx, none)
  | some slot =>
  match (attrsGet attrs "physical_partition_number").bind (parseNatW 8) with
  | none => ([], bootable_part_idx, none)
  | some phys_part_idx =>
  match attrsGet attrs "start_sector" with
  | none => ([], bootable_part_idx, none)
  | some start_sector =>
  match attrsGet attrs "label" with
  | none => ([], bootable_part_idx, none)
  | some label =>
  if num_sectors = 0 then ([], bootable_part_idx, some (.ok ()))
  else
  match attrsGet attrs "filename" with
  | none => ([], bootableUpdate label phys_part_idx bootable_part_idx, none)
  | some filename =>
  if allow_missing_files = true ∧ filename = "" then
    ([], bootableUpdate label phys_part_idx bootable_part_idx,
      some (.ok ()))
  else if allow_missing_files = true ∧
      fileExists (program_file_dir ++ "/" ++ filename) = false then
    ([], bootableUpdate label phys_part_idx bootable_part_idx,
      some (.ok ()))
  else if fileExists (program_file_dir ++ "/" ++ filename) = false then
    ([], bootableUpdate label phys_part_idx bootable_part_idx,
      some (.error "failed to open file"))
  else
    ([.openFile (program_file_dir ++ "/" ++ filename),
      .seekBytes (sector_size *
        ((parseNatW 32 ((attrsGet attrs "file_sector_offset").getD "")).getD
          0)),
      .programStorage label num_sectors slot phys_part_idx start_sector],
      bootableUpdate label phys_part_idx bootable_part_idx,
      some (.ok ()))

/-- An XML child element of a program file: tag name and attributes (the
interpreter skips non-element nodes, which are therefore not modelled). -/
structure Elem where
  name : String
  attributes : Attrs
deriving DecidableEq, Repr

/-- The first pass of `parse_program_xml`: every `<program>` element must
carry a `filename`, and name an existing file unless `allow_missing_files`
is set. -/
def precheckPrograms (fileExists : String → Bool) (dir : String)
    (allow_missing_files : Bool) : List Elem → Except String Unit
  | [] => .ok ()
  | e :: rest =>
    if strToLower e.name = "program" then
      match attrsGet e.attributes "filename" with
      | none => .error "Got program tag without a filename"
      | some filename =>
        if fileExists (dir ++ "/" ++ filename) = false ∧
            allow_missing_files = false then
          .error "program file does not exist"
        else precheckPrograms fileExists dir allow_missing_files rest
    else precheckPrograms fileExists dir allow_missing_files rest

/-- The dispatch of one element of the execution pass of
`parse_program_xml` (the `match e.name.to_lowercase().as_str()` arms). -/
def runElemStep (storage_sector_size : Nat) (fileExists : String → Bool)
    (dir out_dir : String) (allow_missing_files verbose : Bool) (e : Elem)
    (b : Option Nat) :
    List CliOp × Option Nat × Option (Except String Unit) :=
  match strToLower e.name with
  | "getsha256digest" =>
    match parse_read_cmd out_dir e.attributes true with
    | (ops, r) => (ops, b, r)
  | "patch" =>
    match parse_patch_cmd e.attributes verbose with
    | (ops, r) => (ops, b, r)
  | "program" =>
    parse_program_cmd storage_sector_size fileExists dir e.attributes
      allow_missing_files b verbose
  | "read" =>
    match parse_read_cmd out_dir e.attributes false with
    | (ops, r) => (ops, b, r)
  | _ => ([], b, some (.error "Got unknown instruction"))

/-- The second pass of `parse_program_xml`: dispatch each element to its
handler in document order, threading `bootable_part_idx` and stopping at the
first error or panic. -/
def runElems (storage_sector_size : Nat) (fileExists : String → Bool)
    (dir out_dir : String) (allow_missing_files verbose : Bool) :
    List Elem → Option Nat →
    List CliOp × Option Nat × Option (Except String Unit)
  | [], b => ([], b, some (.ok ()))
  | e :: rest, b =>
    match runElemStep storage_sector_size fileExists dir out_dir
        allow_missing_files verbose e b with
    | (ops, b1, some (.ok _)) =>
      match runElems storage_sector_size fileExists dir out_dir
          allow_missing_files verbose rest b1 with
      | (ops2, b2, r) => (ops ++ ops2, b2, r)
    | (ops, b1, r) => (ops, b1, r)

/-- Embedding of `parse_program_xml` (src/cli/src/programfile.rs): the
pre-validation pass followed by the execution pass, with the per-call
`bootable_part_idx` starting at `None`. -/
def parse_program_xml (storage_sector_size : Nat)
    (fileExists : String → Bool) (dir out_dir : String)
    (allow_missing_files verbose : Bool) (elems : List Elem) :
    List CliOp × Option Nat × Option (Except String Unit) :=
  match precheckPrograms fileExists dir allow_missing_files elems with
  | .error e => ([], none, some (.error e))
  | .ok _ =>
    runElems storage_sector_size fileExists dir out_dir allow_missing_files
      verbose elems none

/-- The scratch directory used by `run_flash` on non-Windows hosts. -/
def tmpOutDir : String := "/tmp/out"

/-- The per-file loop of `run_flash`: each program/patch file is given as
its parent directory paired with its parsed XML children (reading and
parsing of the file itself are host-filesystem collaborators).  A file's
returned bootable index, when present, replaces the accumulator. -/
def runFiles (storage_sector_size : Nat) (fileExists : String → Bool)
    (verbose : Bool) :
    List (String × List Elem) → Option Nat →
    List CliOp × Option Nat × Option (Except String Unit)
  | [], b => ([], b, some (.ok ()))
  | (dir, elems) :: rest, b =>
    match parse_program_xml storage_sector_size fileExists dir tmpOutDir
        true verbose elems with
    | (ops, fb, some (.ok _)) =>
      match runFiles storage_sector_size fileExists verbose rest
          (match fb with | some n => some n | none => b) with
      | (ops2, b2, r) => (ops ++ ops2, b2, r)
    | (ops, _, r) => (ops, b, r)

/-- Embedding of `run_flash` (src/cli/src/flasher.rs): execute every file in
order (with `allow_missing_files = true` and the scratch output directory),
then, if any `<program>` marked a bootable partition, issue one
`setbootablestoragedrive`. -/
def run_flash (storage_sector_size : Nat) (fileExists : String → Bool)
    (files : List (String × List Elem)) (verbose : Bool) :
    List CliOp × Option (Except String Unit) :=
  match runFiles storage_sector_size fileExists verbose files none with
  | (ops, b, some (.ok _)) =>
    (ops ++ (match b with | some n => [.setBootable n] | none => []),
      some (.ok ()))
  | (ops, _, r) => (ops, r)

/-- Concrete host-side patch element (filename other than "DISK"). -/
def hostPatchAttrs : Attrs :=
  [("filename", "gpt_main0.bin"), ("byte_offset", "92"),
   ("physical_partition_number", "0"), ("size_in_bytes", "8"),
   ("start_sector", "5"), ("value", "0")]

/-- C1 divergence: a `<patch>` element whose filename is not "DISK" is only
skipped when the verbose flag is set; with `verbose = false` the interpreter
falls through and issues the Firehose patch operation for the host-side
patch. -/
theorem patch_skip_depends_on_verbose :
    parse_patch_cmd hostPatchAttrs false =
      ([CliOp.patch 92 0 0 8 "5" "0"], some (Except.ok ())) ∧
    parse_patch_cmd hostPatchAttrs true = ([], some (Except.ok ())) := by
  exact ⟨rfl, rfl⟩

/-- C8: whenever the `SECTOR_SIZE_IN_BYTES` attribute of a `<program>`
element parses to a value different from the channel configuration's
`storage_sector_size`, the handler fails with the mismatch error having
performed no operation: no file is opened and no Firehose program operation
is issued. -/
theorem program_sector_size_mismatch_fatal (storage_sector_size : Nat)
    (fileExists : String → Bool) (dir : String) (attrs : Attrs)
    (allow_missing_files : Bool) (b : Option Nat) (verbose : Bool) (n : Nat)
    (hs : (attrsGet attrs "SECTOR_SIZE_IN_BYTES").bind (parseNatW 64) =
      some n)
    (hne : n ≠ storage_sector_size) :
    parse_program_cmd storage_sector_size fileExists dir attrs
      allow_missing_files b verbose =
    ([], b, some (Except.error "Mismatch in storage sector size!")) := by
  unfold parse_program_cmd
  rw [hs]
  simp [hne]

/-- Witness for `program_sector_size_mismatch_fatal` at concrete inputs. -/
theorem program_sector_size_mismatch_fatal_witness :
    parse_program_cmd 4096 (fun _ => true) "d"
      [("SECTOR_SIZE_IN_BYTES", "512"), ("num_partition_sectors", "16"),
       ("physical_partition_number", "6"), ("start_sector", "0"),
       ("label", "xbl"), ("filename", "xbl.elf")] true none false =
    ([], none, some (Except.error "Mismatch in storage sector size!")) := by
  exact program_sector_size_mismatch_fatal 4096 (fun _ => true) "d" _ true
    none false 512 (by rfl) (by decide)

/-- C10: with `allow_missing_files` set, a `<program>` element with a
bootable label still records its `physical_partition_number` even when the
transfer is skipped because the filename is empty or the named file does not
exist, while an element with `num_partition_sectors = 0` is skipped before
the bootable check and leaves the recorded index unchanged. -/
theorem program_bootable_recorded_when_skipped (storage_sector_size : Nat)
    (fileExists : String → Bool) (dir : String) (attrs : Attrs)
    (b : Option Nat) (verbose : Bool) (num phys : Nat)
    (start label filename : String)
    (hs : (attrsGet attrs "SECTOR_SIZE_IN_BYTES").bind (parseNatW 64) =
      some storage_sector_size)
    (hnum : (attrsGet attrs "num_partition_sectors").bind (parseNatW 64) =
      some num)
    (hslot : slotParse attrs = some 0)
    (hphys : (attrsGet attrs "physical_partition_number").bind (parseNatW 8)
      = some phys)
    (hstart : attrsGet attrs "start_sector" = some start)
    (hlabel : attrsGet attrs "label" = some label)
    (hboot : label ∈ BOOTABLE_PART_NAMES)
    (hfn : attrsGet attrs "filename" = some filename) :
    (num ≠ 0 → filename = "" →
      parse_program_cmd storage_sector_size fileExists dir attrs true b
        verbose = ([], some phys, some (Except.ok ()))) ∧
    (num ≠ 0 → fileExists (dir ++ "/" ++ filename) = false →
      parse_program_cmd storage_sector_size fileExists dir attrs true b
        verbose = ([], some phys, some (Except.ok ()))) ∧
    (num = 0 →
      parse_program_cmd storage_sector_size fileExists dir attrs true b
        verbose = ([], b, some (Except.ok ()))) := by
  refine ⟨fun hn hempty => ?_, fun hn hmiss => ?_, fun hn => ?_⟩ <;>
    · unfold parse_program_cmd
      rw [hs, hnum, hslot, hphys, hstart, hlabel, hfn]
      simp_all [bootableUpdate]

/-- Witness for `program_bootable_recorded_when_skipped`: an `xbl` element
with an empty filename still records partition 6. -/
theorem program_bootable_recorded_when_skipped_witness :
    parse_program_cmd 4096 (fun _ => true) "d"
      [("SECTOR_SIZE_IN_BYTES", "4096"), ("num_partition_sectors", "16"),
       ("physical_partition_number", "6"), ("start_sector", "0"),
       ("label", "xbl"), ("filename", "")] true none false =
    ([], some 6, some (Except.ok ())) := by
  exact (program_bootable_recorded_when_skipped 4096 (fun _ => true) "d" _
    none false 16 6 "0" "xbl" "" (by rfl) (by rfl) (by rfl) (by rfl)
    (by rfl) (by rfl) (by decide) (by rfl)).1 (by decide) rfl

/-- Left-biased choice on optional partition indices (the effect of
`if let Some(n) = … { bootable_part_idx = Some(n) }`). -/
def optOr (a b : Option Nat) : Option Nat :=
  match a with
  | some n => some n
  | none => b

/-- The bootable index recorded by a single element when the interpreter
reaches it with no index recorded yet: `none` unless it is an executed
`<program>` element with a bootable label. -/
def elemBootableMark (storage_sector_size : Nat)
    (fileExists : String → Bool) (dir : String)
    (allow_missing_files verbose : Bool) (e : Elem) : Option Nat :=
  if strToLower e.name = "program" then
    (parse_program_cmd storage_sector_size fileExists dir e.attributes
      allow_missing_files none verbose).2.1
  else none

/-- The bootable index recorded by a sequence of elements, scanned in
document order: the mark of the last marking element wins. -/
def markFoldElems (storage_sector_size : Nat) (fileExists : String → Bool)
    (dir : String) (allow_missing_files verbose : Bool) :
    List Elem → Option Nat → Option Nat
  | [], b => b
  | e :: rest, b =>
    markFoldElems storage_sector_size fileExists dir allow_missing_files
      verbose rest
      (optOr (elemBootableMark storage_sector_size fileExists dir
        allow_missing_files verbose e) b)

/-- The bootable index recorded across a list of program/patch files. -/
def markFoldFiles (storage_sector_size : Nat) (fileExists : String → Bool)
    (verbose : Bool) :
    List (String × List Elem) → Option Nat → Option Nat
  | [], b => b
  | (dir, elems) :: rest, b =>
    markFoldFiles storage_sector_size fileExists verbose rest
      (markFoldElems storage_sector_size fileExists dir true verbose elems b)

/-- Recogniser for the set-bootable operation. -/
def isSetBootable : CliOp → Bool
  | .setBootable _ => true
  | _ => false

/-- Number of set-bootable operations in a trace. -/
def countSetBootable (ops : List CliOp) : Nat :=
  (ops.filter isSetBootable).length

theorem countSetBootable_append (a b : List CliOp) :
    countSetBootable (a ++ b) = countSetBootable a + countSetBootable b := by
  simp [countSetBootable, List.filter_append]

theorem optOr_none (b : Option Nat) : optOr none b = b := rfl

theorem optOr_none_right (a : Option Nat) : optOr a none = a := by
  cases a <;> rfl

theorem optOr_assoc (a b c : Option Nat) :
    optOr (optOr a b) c = optOr a (optOr b c) := by
  cases a <;> rfl

/-- The read handler never issues a set-bootable operation. -/
theorem parse_read_cmd_no_setBootable (out_dir : String) (attrs : Attrs)
    (checksum_only : Bool) :
    countSetBootable (parse_read_cmd out_dir attrs checksum_only).1 = 0 := by
  unfold parse_read_cmd
  repeat' split
  all_goals simp [countSetBootable, isSetBootable]

/-- The patch handler never issues a set-bootable operation. -/
theorem parse_patch_cmd_no_setBootable (attrs : Attrs) (verbose : Bool) :
    countSetBootable (parse_patch_cmd attrs verbose).1 = 0 := by
  unfold parse_patch_cmd
  repeat' split
  all_goals simp [countSetBootable, isSetBootable]

/-- The program handler never issues a set-bootable operation. -/
theorem parse_program_cmd_no_setBootable (storage_sector_size : Nat)
    (fileExists : String → Bool) (dir : String) (attrs : Attrs)
    (allow_missing_files : Bool) (b : Option Nat) (verbose : Bool) :
    countSetBootable (parse_program_cmd storage_sector_size fileExists dir
      attrs allow_missing_files b verbose).1 = 0 := by
  unfold parse_program_cmd
  repeat' split
  all_goals simp [countSetBootable, isSetBootable]

theorem optOr_bootableUpdate (label : String) (phys : Nat)
    (b : Option Nat) :
    optOr (bootableUpdate label phys none) b = bootableUpdate label phys b := by
  unfold bootableUpdate
  split <;> rfl

/-- The bootable out-parameter of the program handler is the input updated
by the element's own mark, independently of everything else. -/
theorem parse_program_cmd_bootable (storage_sector_size : Nat)
    (fileExists : String → Bool) (dir : String) (attrs : Attrs)
    (allow_missing_files : Bool) (b : Option Nat) (verbose : Bool) :
    parse_program_cmd storage_sector_size fileExists dir attrs
      allow_missing_files b verbose =
    ((parse_program_cmd storage_sector_size fileExists dir attrs
        allow_missing_files none verbose).1,
      optOr (parse_program_cmd storage_sector_size fileExists dir attrs
        allow_missing_files none verbose).2.1 b,
      (parse_program_cmd storage_sector_size fileExists dir attrs
        allow_missing_files none verbose).2.2) := by
  unfold parse_program_cmd
  repeat' split
  all_goals simp_all [optOr_none, optOr_bootableUpdate]

/-- One dispatch step issues no set-bootable operation. -/
theorem runElemStep_no_setBootable (storage_sector_size : Nat)
    (fileExists : String → Bool) (dir out_dir : String)
    (allow_missing_files verbose : Bool) (e : Elem) (b : Option Nat) :
    countSetBootable (runElemStep storage_sector_size fileExists dir out_dir
      allow_missing_files verbose e b).1 = 0 := by
  unfold runElemStep
  split
  · rcases hp : parse_read_cmd out_dir e.attributes true with ⟨ops, r⟩
    have h0 := parse_read_cmd_no_setBootable out_dir e.attributes true
    rw [hp] at h0
    simpa using h0
  · rcases hp : parse_patch_cmd e.attributes verbose with ⟨ops, r⟩
    have h0 := parse_patch_cmd_no_setBootable e.attributes verbose
    rw [hp] at h0
    simpa using h0
  · exact parse_program_cmd_no_setBootable storage_sector_size fileExists
      dir e.attributes allow_missing_files b verbose
  · rcases hp : parse_read_cmd out_dir e.attributes false with ⟨ops, r⟩
    have h0 := parse_read_cmd_no_setBootable out_dir e.attributes false
    rw [hp] at h0
    simpa using h0
  · simp [countSetBootable, isSetBootable]

/-- One dispatch step updates the threaded bootable index with exactly the
element's own mark, whatever the control outcome. -/
theorem runElemStep_bootable (storage_sector_size : Nat)
    (fileExists : String → Bool) (dir out_dir : String)
    (allow_missing_files verbose : Bool) (e : Elem) (b : Option Nat) :
    (runElemStep storage_sector_size fileExists dir out_dir
      allow_missing_files verbose e b).2.1 =
    optOr (elemBootableMark storage_sector_size fileExists dir
      allow_missing_files verbose e) b := by
  unfold runElemStep elemBootableMark
  split
  · rcases hp : parse_read_cmd out_dir e.attributes true with ⟨ops, r⟩
    simp_all [optOr_none]
  · rcases hp : parse_patch_cmd e.attributes verbose with ⟨ops, r⟩
    simp_all [optOr_none]
  · rw [parse_program_cmd_bootable]
    simp_all
  · rcases hp : parse_read_cmd out_dir e.attributes false with ⟨ops, r⟩
    simp_all [optOr_none]
  · simp_all [optOr_none]

/-- The execution pass issues no set-bootable operation, and on success its
final bootable index is the mark-fold of the elements over the input
index. -/
theorem runElems_spec (storage_sector_size : Nat)
    (fileExists : String → Bool) (dir out_dir : String)
    (allow_missing_files verbose : Bool) :
    ∀ (elems : List Elem) (b : Option Nat),
      countSetBootable (runElems storage_sector_size fileExists dir out_dir
        allow_missing_files verbose elems b).1 = 0 ∧
      ((runElems storage_sector_size fileExists dir out_dir
          allow_missing_files verbose elems b).2.2 = some (Except.ok ()) →
        (runElems storage_sector_size fileExists dir out_dir
          allow_missing_files verbose elems b).2.1 =
        markFoldElems storage_sector_size fileExists dir allow_missing_files
          verbose elems b) := by
  intro elems
  induction elems with
  | nil =>
    intro b
    simp [runElems, markFoldElems, countSetBootable]
  | cons e rest ih =>
    intro b
    have hstep0 := runElemStep_no_setBootable storage_sector_size fileExists
      dir out_dir allow_missing_files verbose e b
    have hstepb := runElemStep_bootable storage_sector_size fileExists dir
      out_dir allow_missing_files verbose e b
    rcases hstep : runElemStep storage_sector_size fileExists dir out_dir
        allow_missing_files verbose e b with ⟨ops, b1, r⟩
    rw [hstep] at hstep0 hstepb
    simp only at hstep0 hstepb
    have hfold : markFoldElems storage_sector_size fileExists dir
        allow_missing_files verbose (e :: rest) b =
        markFoldElems storage_sector_size fileExists dir allow_missing_files
          verbose rest b1 := by
      rw [markFoldElems, ← hstepb]
    rcases r with _ | r
    · rw [runElems, hstep]
      dsimp only
      exact ⟨hstep0, by intro h; cases h⟩
    · rcases r with err | u
      · rw [runElems, hstep]
        dsimp only
        exact ⟨hstep0, by intro h; cases h⟩
      · rcases hrec : runElems storage_sector_size fileExists dir out_dir
            allow_missing_files verbose rest b1 with ⟨ops2, b2, r2⟩
        have ihr := ih b1
        rw [hrec] at ihr
        simp only at ihr
        rw [runElems, hstep]
        dsimp only
        rw [hrec]
        dsimp only
        refine ⟨?_, ?_⟩
        · simpa [countSetBootable_append, hstep0] using ihr.1
        · intro h
          rw [hfold]
          exact ihr.2 h

/-- Mark-folding over elements factors through the empty accumulator. -/
theorem markFoldElems_optOr (storage_sector_size : Nat)
    (fileExists : String → Bool) (dir : String)
    (allow_missing_files verbose : Bool) :
    ∀ (elems : List Elem) (b : Option Nat),
      markFoldElems storage_sector_size fileExists dir allow_missing_files
        verbose elems b =
      optOr (markFoldElems storage_sector_size fileExists dir
        allow_missing_files verbose elems none) b := by
  intro elems
  induction elems with
  | nil =>
    intro b
    simp [markFoldElems, optOr_none]
  | cons e rest ih =>
    intro b
    rw [markFoldElems, markFoldElems, ih, ih (optOr _ none),
      optOr_none_right, optOr_assoc]

/-- The whole-file interpreter issues no set-bootable operation, and on
success returns the mark-fold of its elements starting from no recorded
index. -/
theorem parse_program_xml_spec (storage_sector_size : Nat)
    (fileExists : String → Bool) (dir out_dir : String)
    (allow_missing_files verbose : Bool) (elems : List Elem) :
    countSetBootable (parse_program_xml storage_sector_size fileExists dir
      out_dir allow_missing_files verbose elems).1 = 0 ∧
    ((parse_program_xml storage_sector_size fileExists dir out_dir
        allow_missing_files verbose elems).2.2 = some (Except.ok ()) →
      (parse_program_xml storage_sector_size fileExists dir out_dir
        allow_missing_files verbose elems).2.1 =
      markFoldElems storage_sector_size fileExists dir allow_missing_files
        verbose elems none) := by
  unfold parse_program_xml
  rcases hpre : precheckPrograms fileExists dir allow_missing_files elems
    with err | u
  · exact ⟨by simp [countSetBootable], by intro h; cases h⟩
  · exact runElems_spec storage_sector_size fileExists dir out_dir
      allow_missing_files verbose elems none

/-- The per-file loop issues no set-bootable operation, and on success its
final bootable index is the mark-fold over all files. -/
theorem runFiles_spec (storage_sector_size : Nat)
    (fileExists : String → Bool) (verbose : Bool) :
    ∀ (files : List (String × List Elem)) (b : Option Nat),
      countSetBootable (runFiles storage_sector_size fileExists verbose
        files b).1 = 0 ∧
      ((runFiles storage_sector_size fileExists verbose files b).2.2 =
          some (Except.ok ()) →
        (runFiles storage_sector_size fileExists verbose files b).2.1 =
        markFoldFiles storage_sector_size fileExists verbose files b) := by
  intro files
  induction files with
  | nil =>
    intro b
    simp [runFiles, markFoldFiles, countSetBootable]
  | cons f rest ih =>
    rcases f with ⟨dir, elems⟩
    intro b
    have hxml := parse_program_xml_spec storage_sector_size fileExists dir
      tmpOutDir true verbose elems
    rcases hfile : parse_program_xml storage_sector_size fileExists dir
        tmpOutDir true verbose elems with ⟨ops, fb, r⟩
    rw [hfile] at hxml
    simp only at hxml
    have hfold : markFoldFiles storage_sector_size fileExists verbose
        ((dir, elems) :: rest) b =
        markFoldFiles storage_sector_size fileExists verbose rest
          (markFoldElems storage_sector_size fileExists dir true verbose
            elems b) := by
      rw [markFoldFiles]
    rcases r with _ | r
    · rw [runFiles, hfile]
      dsimp only
      exact ⟨hxml.1, by intro h; cases h⟩
    · rcases r with err | u
      · rw [runFiles, hfile]
        dsimp only
        exact ⟨hxml.1, by intro h; cases h⟩
      · have hfb : fb = markFoldElems storage_sector_size fileExists dir
            true verbose elems none := hxml.2 rfl
        subst hfb
        have hnext : (match markFoldElems storage_sector_size fileExists dir
              true verbose elems none with
            | some n => some n
            | none => b) =
            markFoldElems storage_sector_size fileExists dir true verbose
              elems b := by
          conv_rhs => rw [markFoldElems_optOr]
          cases markFoldElems storage_sector_size fileExists dir true
            verbose elems none <;> rfl
        rw [runFiles, hfile]
        dsimp only
        rw [hnext]
        rcases hrec : runFiles storage_sector_size fileExists verbose rest
            (markFoldElems storage_sector_size fileExists dir true verbose
              elems b)
          with ⟨ops2, b2, r2⟩
        have ihr := ih (markFoldElems storage_sector_size fileExists dir
          true verbose elems b)
        rw [hrec] at ihr
        simp only at ihr
        dsimp only
        refine ⟨?_, ?_⟩
        · simpa [countSetBootable_append, hxml.1] using ihr.1
        · intro h
          rw [hfold]
          exact ihr.2 h

/-- C5: over a list of program/patch files that the flasher runs to
completion, exactly one set-bootable operation is issued — as the very last
operation, carrying the index recorded by the last marking `<program>`
element — when some executed element marked a bootable partition, and none
is issued otherwise. -/
theorem run_flash_set_bootable_once (storage_sector_size : Nat)
    (fileExists : String → Bool) (files : List (String × List Elem))
    (verbose : Bool) (ops : List CliOp)
    (h : run_flash storage_sector_size fileExists files verbose =
      (ops, some (Except.ok ()))) :
    (∀ n, markFoldFiles storage_sector_size fileExists verbose files none =
        some n →
      countSetBootable ops = 1 ∧
      ops.getLast? = some (CliOp.setBootable n)) ∧
    (markFoldFiles storage_sector_size fileExists verbose files none = none →
      countSetBootable ops = 0) := by
  have hrf := runFiles_spec storage_sector_size fileExists verbose files none
  rcases hr : runFiles storage_sector_size fileExists verbose files none
    with ⟨ops0, b, r⟩
  rw [hr] at hrf
  simp only at hrf
  unfold run_flash at h
  rw [hr] at h
  rcases r with _ | r
  · exact absurd (congrArg Prod.snd h) (by simp)
  · rcases r with err | u
    · exact absurd (congrArg Prod.snd h) (by simp)
    · have hb : b = markFoldFiles storage_sector_size fileExists verbose
          files none := hrf.2 rfl
      dsimp only at h
      rcases b with _ | n
      · have hops : ops = ops0 := by
          have h1 := congrArg Prod.fst h
          simpa using h1.symm
        constructor
        · intro n hn
          rw [← hb] at hn
          cases hn
        · intro _
          rw [hops]
          exact hrf.1
      · have hops : ops = ops0 ++ [CliOp.setBootable n] := by
          have h1 := congrArg Prod.fst h
          simpa using h1.symm
        constructor
        · intro m hm
          rw [← hb] at hm
          injection hm with hm2
          subst hm2
          rw [hops]
          refine ⟨?_, List.getLast?_concat _⟩
          rw [countSetBootable_append, hrf.1]
          simp [countSetBootable, isSetBootable]
        · intro hnone
          rw [← hb] at hnone
          cases hnone

/-- Witness for `run_flash_set_bootable_once`: a single program file with
one `xbl` element on partition 6 ends in exactly one set-bootable. -/
theorem run_flash_set_bootable_once_witness :
    countSetBootable (run_flash 4096 (fun _ => true)
      [("d", [⟨"program",
        [("SECTOR_SIZE_IN_BYTES", "4096"), ("num_partition_sectors", "16"),
         ("physical_partition_number", "6"), ("start_sector", "0"),
         ("label", "xbl"), ("filename", "xbl.elf")]⟩])] false).1 = 1 ∧
    (run_flash 4096 (fun _ => true)
      [("d", [⟨"program",
        [("SECTOR_SIZE_IN_BYTES", "4096"), ("num_partition_sectors", "16"),
         ("physical_partition_number", "6"), ("start_sector", "0"),
         ("label", "xbl"), ("filename", "xbl.elf")]⟩])] false).1.getLast? =
      some (CliOp.setBootable 6) := by
  exact (run_flash_set_bootable_once 4096 (fun _ => true)
    [("d", [⟨"program",
      [("SECTOR_SIZE_IN_BYTES", "4096"), ("num_partition_sectors", "16"),
       ("physical_partition_number", "6"), ("start_sector", "0"),
       ("label", "xbl"), ("filename", "xbl.elf")]⟩])] false
    (run_flash 4096 (fun _ => true)
      [("d", [⟨"program",
        [("SECTOR_SIZE_IN_BYTES", "4096"), ("num_partition_sectors", "16"),
         ("physical_partition_number", "6"), ("start_sector", "0"),
         ("label", "xbl"), ("filename", "xbl.elf")]⟩])] false).1
    (by rfl)).1 6 (by rfl)
